import Mathlib

/-!
Shallow embedding of the LinkMint application core (src/app/main.py,
src/app/stripe_utils.py, src/app/email_providers.py) and proofs of the
specification claims about it.

External platform state (the payment-platform catalog of products and
prices) is modelled as an explicit value passed to each operation; process
configuration (environment variables) is modelled as option-valued records;
fallible code returns `Except`.
-/

namespace LinkMint

set_option maxRecDepth 16384

/-! ## Python string helpers -/

/-- Truthiness of a Python value of type `str | None`: `None` and the empty
string are falsy, every other string is truthy. -/
def pyTruthyOpt : Option String → Bool
  | none => false
  | some s => s != ""

/-- Python `a or b` on strings: `b` when `a` is empty, else `a`. -/
def pyOrS (a b : String) : String :=
  if a == "" then b else a

/-- Python `s.strip()`: remove leading and trailing whitespace. -/
def pyStrip (s : String) : String :=
  ⟨((s.data.dropWhile Char.isWhitespace).reverse.dropWhile Char.isWhitespace).reverse⟩

/-- Python `s.lower()`: lowercase every character. -/
def pyLower (s : String) : String :=
  ⟨s.data.map Char.toLower⟩

/-- Fuel-driven core of Python `str.replace`: scan left to right, replacing
non-overlapping occurrences of `pat`. The fuel is at least the length of the
scanned list, so it never runs out when `pat` is nonempty. -/
def replaceCharsFuel (pat rep : List Char) : Nat → List Char → List Char
  | _, [] => []
  | 0, s => s
  | fuel + 1, c :: cs =>
    if pat.isPrefixOf (c :: cs) then
      rep ++ replaceCharsFuel pat rep fuel ((c :: cs).drop pat.length)
    else
      c :: replaceCharsFuel pat rep fuel cs

/-- Python `s.replace(pat, rep)`: replaces every non-overlapping occurrence of
`pat` in `s`, left to right. An empty pattern inserts `rep` before every
character and at the end, as Python does. -/
def pyReplace (s pat rep : String) : String :=
  match pat.data with
  | [] => ⟨rep.data ++ s.data.foldr (fun c acc => c :: rep.data ++ acc) []⟩
  | _ :: _ => ⟨replaceCharsFuel pat.data rep.data s.data.length s.data⟩

/-! ## Catalog data model (external platform entities, read-only) -/

/-- A price record of the external catalog (`Price` in the spec): only the
fields the source reads. -/
structure Price where
  id : String
  product : String
  active : Bool
deriving DecidableEq, Repr

/-- A product record of the external catalog (`SellableItem` in the spec).
`metadata` is the free-form string-to-string attribute mapping; `default_price`
is the referenced default-price id (the source accepts both the plain id and
the expanded object, and in both cases reduces it to the id). -/
structure Product where
  id : String
  name : String
  description : Option String
  images : List String
  metadata : List (String × String)
  default_price : Option String
  active : Bool
deriving DecidableEq, Repr

/-- The catalog state held by the external payment platform: products and
prices, each in the platform listing order. -/
structure Catalog where
  products : List Product
  prices : List Price
deriving DecidableEq, Repr

/-- stripe.Price.retrieve by id, as a lookup in the catalog state; `none`
models the platform raising for an unknown id. -/
def retrievePrice (c : Catalog) (pid : String) : Option Price :=
  c.prices.find? (fun pr => pr.id == pid)

/-- stripe.Price.list(product=productId, active=True, limit=limit): the active
prices of the product, in listing order, truncated to `limit`. -/
def listActivePrices (c : Catalog) (productId : String) (limit : Nat) : List Price :=
  (c.prices.filter (fun pr => pr.product == productId && pr.active)).take limit

/-- Embeds stripe_utils.find_product_by_slug: lists active products and
returns the first whose metadata slug equals the given slug, else None. -/
def find_product_by_slug (c : Catalog) (slug : String) : Option Product :=
  (c.products.filter (fun p => p.active)).find?
    (fun p => List.lookup "slug" p.metadata == some slug)

/-- Embeds stripe_utils.default_price_for_product. Resolution: if the product
carries a (truthy) default-price reference, retrieve it and return it when
active; otherwise fall back to the first of up to 10 active prices of the
product; otherwise None. `.error` models the uncaught platform exception when
the referenced default price does not exist. -/
def default_price_for_product (c : Catalog) (p : Product) : Except Unit (Option String) :=
  let fallback : Except Unit (Option String) :=
    .ok ((listActivePrices c p.id 10).head?.map Price.id)
  match p.default_price with
  | some price =>
    if price != "" then
      match retrievePrice c price with
      | none => .error ()
      | some pr => if pr.active then .ok (some pr.id) else fallback
    else fallback
  | none => fallback

/-! ## Token Signer (main.py `signer`, an itsdangerous TimestampSigner) -/

/-- Modelled from the spec: the HMAC used by the Token Signer and by webhook
signature verification lives in third-party libraries, not under src/. Per §3
it is a deterministic keyed function of the secret and the message; we model
it as a fixed concrete hash of both. -/
def hmacModel (secret msg : String) : Nat :=
  msg.data.foldl (fun h c => (h * 131 + c.toNat + 7) % 1000000007)
    (secret.data.foldl (fun h c => (h * 131 + c.toNat + 3) % 1000000007) 5381)

/-- Modelled from the spec: a preview token (§3) is self-contained — payload
slug, issue timestamp, and a signature over both with the process-wide
secret. -/
structure SignedToken where
  payload : String
  ts : Nat
  sig : Nat
deriving DecidableEq, Repr

/-- The signature a well-formed token carries for a given payload and issue
time under a given secret. -/
def tokenMac (secret payload : String) (ts : Nat) : Nat :=
  hmacModel secret (payload ++ "." ++ toString ts)

/-- Reasons token verification fails: bad signature, or expired
(itsdangerous raises SignatureExpired, a subclass of BadSignature). -/
inductive SignError where
  | badSignature
  | expired
deriving DecidableEq, Repr

/-- Modelled from the spec: `issue(slug)` (§4.1) binds the slug and the
current time, signed with the process-wide secret. -/
def sign (secret : String) (now : Nat) (payload : String) : SignedToken :=
  { payload := payload, ts := now, sig := tokenMac secret payload now }

/-- Modelled from the spec: `verify(token, maxAgeSeconds)` (§3, §4.1) — valid
iff the signature matches and the age does not exceed maxAge; the signature is
checked first. -/
def unsign (secret : String) (now maxAge : Nat) (t : SignedToken) : Except SignError String :=
  if t.sig = tokenMac secret t.payload t.ts then
    if now - t.ts ≤ maxAge then .ok t.payload else .error .expired
  else .error .badSignature

/-! ## Notification Dispatcher (email_providers.py) -/

/-- The closed set of notification backends: one variant per provider class,
carrying the constructor arguments of the source classes. -/
inductive EmailProvider where
  | disabled
  | postmark (apiKey sender : String)
  | brevo (apiKey sender : String)
  | sendgrid (apiKey sender : String)
deriving DecidableEq, Repr

/-- One invocation of the dispatcher `send` capability: the arguments the
handlers pass. -/
structure SendCall where
  toAddr : String
  subject : String
  html : String
  text : Option String
deriving DecidableEq, Repr

/-- The outcome of one `send`: DisabledProvider.send returns without doing
anything; each concrete provider posts one HTTP request and raises
(`raise_for_status`) when the backend answers non-success, modelled by the
`httpOk` flag of the ambient network. -/
def providerSend (p : EmailProvider) (_call : SendCall) (httpOk : Bool) : Except Unit Unit :=
  match p with
  | .disabled => .ok ()
  | _ => if httpOk then .ok () else .error ()

/-- The environment variables email_providers.build_provider reads. -/
structure EmailConfig where
  EMAIL_PROVIDER : Option String
  EMAIL_API_KEY : Option String
  EMAIL_FROM : Option String
deriving DecidableEq, Repr

/-- Embeds email_providers.build_provider: normalise the backend identifier
(strip + lowercase), then pick the named backend only when both the credential
and the sender address are nonempty; in every other case fall back to the
disabled (no-op) provider. -/
def build_provider (cfg : EmailConfig) : EmailProvider :=
  let provider := pyLower (pyStrip (cfg.EMAIL_PROVIDER.getD "disabled"))
  let api_key := cfg.EMAIL_API_KEY.getD ""
  let sender := cfg.EMAIL_FROM.getD ""
  if provider == "postmark" && api_key != "" && sender != "" then
    .postmark api_key sender
  else if provider == "brevo" && api_key != "" && sender != "" then
    .brevo api_key sender
  else if provider == "sendgrid" && api_key != "" && sender != "" then
    .sendgrid api_key sender
  else .disabled

/-! ## Checkout URL builders (stripe_utils.py) -/

/-- The environment variables the URL builders read. -/
structure UrlConfig where
  STRIPE_SUCCESS_URL_BASE : Option String
  STRIPE_CANCEL_URL_BASE : Option String
  BASE_URL : Option String
deriving DecidableEq, Repr

/-- Embeds stripe_utils.build_success_url: take the configured success-URL
template, defaulting to BASE_URL plus a templated product path — the default
is a Python f-string, in which a doubled brace escapes to a single literal
brace, so the default template carries single-brace placeholders. The two
replace calls, however, pass plain (non-f-string) literals, so they search
for the doubled-brace eight-plus-character patterns verbatim. -/
def build_success_url (cfg : UrlConfig) (slug order_public_id : String) : String :=
  let template := cfg.STRIPE_SUCCESS_URL_BASE.getD
    ((cfg.BASE_URL.getD "http://localhost:8000") ++ "/p/{slug}?success=1&op={order_public_id}")
  pyReplace (pyReplace template "{{slug}}" slug) "{{order_public_id}}" order_public_id

/-- Embeds stripe_utils.build_cancel_url: same shape as build_success_url,
including the plain doubled-brace replace pattern against a single-brace
f-string default template. -/
def build_cancel_url (cfg : UrlConfig) (slug : String) : String :=
  let template := cfg.STRIPE_CANCEL_URL_BASE.getD
    ((cfg.BASE_URL.getD "http://localhost:8000") ++ "/p/{slug}?cancel=1")
  pyReplace template "{{slug}}" slug

/-! ## Webhook Event Processor (main.py stripe_webhook) -/

/-- The nested checkout details of a checkout.session.completed payload: the
one field the handler reads. -/
structure CheckoutDetails where
  email : Option String
deriving DecidableEq, Repr

/-- The billing details of a charge.refunded payload: the one field the
handler reads. -/
structure BillingDetails where
  email : Option String
deriving DecidableEq, Repr

/-- The `data.object` variant payload of a payment event, restricted to the
fields the handler reads; a field is `none` when absent from the payload. -/
structure EventObject where
  customer_details : Option CheckoutDetails
  metadata : Option (List (String × String))
  billing_details : Option BillingDetails
deriving DecidableEq, Repr

/-- A payment event: type tag plus the `data.object` payload. -/
structure Event where
  type : String
  object : EventObject
deriving DecidableEq, Repr

/-- A fixed serialisation of an event, standing for the raw request body the
platform signed; the signature is recomputed over this serialisation. -/
def encodeEvent (e : Event) : String :=
  let encOptStr : Option String → String := fun o => o.getD "null"
  let encPairs : List (String × String) → String := fun l =>
    String.join (l.map (fun kv => kv.1 ++ "=" ++ kv.2 ++ ";"))
  e.type ++ "|"
    ++ (match e.object.customer_details with
        | none => "null"
        | some cd => encOptStr cd.email) ++ "|"
    ++ (match e.object.metadata with
        | none => "null"
        | some md => encPairs md) ++ "|"
    ++ (match e.object.billing_details with
        | none => "null"
        | some bd => encOptStr bd.email)

/-- An inbound webhook request: the event carried by the raw body together
with the value of the stripe-signature header. -/
structure WebhookRequest where
  event : Event
  sigHeader : Nat
deriving DecidableEq, Repr

/-- Modelled from the spec: stripe_utils.verify_webhook delegates to the
platform library, which recomputes the expected signature over the raw
payload bytes with the shared secret and rejects on mismatch (§3, §4.4),
yielding the parsed event on success. -/
def verify_webhook (secret : String) (r : WebhookRequest) : Except Unit Event :=
  if r.sigHeader = hmacModel secret (encodeEvent r.event) then .ok r.event
  else .error ()

/-- The HTTP-error outcome of a handler (FastAPI HTTPException): status code
and detail string, both visible to the caller. -/
structure HttpError where
  status : Nat
  detail : String
deriving DecidableEq, Repr

/-- The success body of the webhook handler. -/
structure Ack where
  ok : Bool
deriving DecidableEq, Repr

/-- Embeds main.py stripe_webhook. Returns the handler response together
with the list of dispatcher `send` invocations the handler made, in order.
`provider` is the process-wide provider chosen at startup; `httpOk` is the
ambient notification-backend availability. A failed verification raises
HTTPException 400 before anything else; each `send` outcome is discarded by
the try/except around it, so it never reaches the response. -/
def stripe_webhook (secret : String) (provider : EmailProvider) (httpOk : Bool)
    (r : WebhookRequest) : Except HttpError Ack × List SendCall :=
  match verify_webhook secret r with
  | .error _ => (.error { status := 400, detail := "Invalid signature" }, [])
  | .ok event =>
    let data := event.object
    let confirmationCalls : List SendCall :=
      if event.type == "checkout.session.completed" then
        let customer_email := data.customer_details.bind (fun cd => cd.email)
        let slug := ((data.metadata.getD []).lookup "product_slug").getD ""
        if pyTruthyOpt customer_email && slug != "" then
          [{ toAddr := customer_email.getD "",
             subject := "Your order is confirmed",
             html := "<p>Thanks for your purchase of <strong>" ++ slug ++ "</strong>.</p>",
             text := some ("Order confirmed for " ++ slug) }]
        else []
      else []
    let refundCalls : List SendCall :=
      if event.type == "charge.refunded" then
        let email := data.billing_details.bind (fun bd => bd.email)
        if pyTruthyOpt email then
          [{ toAddr := email.getD "",
             subject := "Your refund is completed",
             html := "<p>Your refund has been processed.</p>",
             text := none }]
        else []
      else []
    let calls := confirmationCalls ++ refundCalls
    let _sendOutcomes := calls.map (fun c => providerSend provider c httpOk)
    (.ok { ok := true }, calls)

/-! ## Product page and preview-token endpoints (main.py) -/

/-- The template context metadata main.py builds from a product. -/
structure Meta where
  title : String
  description : String
  og_title : String
  og_description : String
  og_image : String
  slug : String
  theme : String
  published : String
deriving DecidableEq, Repr

/-- Embeds main.py _meta_from_product: metadata attributes with Python
`or`-style fallbacks to the product fields and defaults. -/
def meta_from_product (prod : Product) : Meta :=
  let md := prod.metadata
  let get : String → Option String := fun k => List.lookup k md
  let optD : Option String → String := fun o => o.getD ""
  { title := prod.name,
    description := pyOrS (optD (get "og_description")) (pyOrS (optD prod.description) ""),
    og_title := pyOrS (optD (get "og_title")) prod.name,
    og_description := pyOrS (optD (get "og_description")) (pyOrS (optD prod.description) ""),
    og_image := pyOrS (optD (get "og_image")) ((prod.images.head?).getD ""),
    slug := (get "slug").getD "",
    theme := (get "theme").getD "default",
    published := (get "published").getD "true" }

/-- The rendered product page: the template path and the context values the
handler passes to the renderer. -/
structure Page where
  template : String
  meta : Meta
  product : Product
  price_id : String
deriving DecidableEq, Repr

/-- Embeds main.py product_page. Lookup by slug (404 when absent); when the
item is not published, require a preview token: absent token gives 404,
a token failing verification (bad signature or expired, both caught as
BadSignature) gives 403; then resolve the price (400 when none); a platform
exception while retrieving the default price propagates as a 500. -/
def product_page (c : Catalog) (secret : String) (now : Nat) (slug : String)
    (preview : Option SignedToken) : Except HttpError Page :=
  match find_product_by_slug c slug with
  | none => .error { status := 404, detail := "Product not found" }
  | some prod =>
    let meta := meta_from_product prod
    let gate : Except HttpError Unit :=
      if meta.published != "true" then
        match preview with
        | none => .error { status := 404, detail := "Product not published" }
        | some tok =>
          match unsign secret now 3600 tok with
          | .error _ => .error { status := 403, detail := "Invalid preview token" }
          | .ok _ => .ok ()
      else .ok ()
    match gate with
    | .error e => .error e
    | .ok _ =>
      match default_price_for_product c prod with
      | .error _ => .error { status := 500, detail := "Internal Server Error" }
      | .ok none => .error { status := 400, detail := "No active price for product" }
      | .ok (some price_id) =>
        .ok { template := "themes/" ++ meta.theme ++ "/product.html",
              meta := meta, product := prod, price_id := price_id }

/-- Embeds main.py preview_token: sign the slug with the process-wide signer
and return the token. The handler runs in a process that can reach the
catalog, so the catalog state is in scope, but the handler performs no lookup
and has no failure path. -/
def preview_token (_c : Catalog) (secret : String) (now : Nat) (slug : String) :
    Except HttpError SignedToken :=
  .ok (sign secret now slug)

/-! ## Concrete fixtures used by witnesses and counterexamples -/

/-- An unpublished but otherwise well-formed catalog product. -/
def secretProduct : Product :=
  { id := "prod_sec", name := "Secret", description := none, images := [],
    metadata := [("slug", "secret1"), ("published", "false")],
    default_price := none, active := true }

/-- A catalog holding one unpublished product with one active price. -/
def previewDemoCatalog : Catalog :=
  { products := [secretProduct],
    prices := [{ id := "price_1", product := "prod_sec", active := true }] }

/-- A published product with no prices at all. -/
def widgetProduct : Product :=
  { id := "prod_w", name := "Widget", description := none, images := [],
    metadata := [("slug", "widget"), ("published", "true")],
    default_price := none, active := true }

/-- A catalog holding one published product and no prices. -/
def noPriceCatalog : Catalog := { products := [widgetProduct], prices := [] }

/-- The product of the spec's price-resolution example: default price P1. -/
def exampleProduct : Product :=
  { id := "prod_x", name := "X", description := none, images := [],
    metadata := [("slug", "x")], default_price := some "P1", active := true }

/-- The catalog of the spec's price-resolution example: P1 inactive, P2 and
P3 active, in that listing order. -/
def exampleCatalog : Catalog :=
  { products := [exampleProduct],
    prices := [{ id := "P1", product := "prod_x", active := false },
               { id := "P2", product := "prod_x", active := true },
               { id := "P3", product := "prod_x", active := true }] }

/-- A checkout.session.completed event carrying both a buyer email and a
product slug. -/
def checkoutEvent : Event :=
  { type := "checkout.session.completed",
    object := { customer_details := some { email := some "buyer@example.com" },
                metadata := some [("product_slug", "widget-1"), ("order_public_id", "abc123")],
                billing_details := none } }

/-- A charge.refunded event whose billing details carry no email. -/
def refundedEvent : Event :=
  { type := "charge.refunded",
    object := { customer_details := none, metadata := none,
                billing_details := some { email := none } } }

/-! ## Claims -/

/-- C1: a webhook request whose payload signature does not verify against the
shared secret is rejected with the invalid-signature error (HTTP 400) before
any business logic runs, and the Notification Dispatcher's send is invoked
zero times during that request — for every provider and network state. -/
theorem webhook_invalid_signature_rejected (secret : String) (provider : EmailProvider)
    (httpOk : Bool) (r : WebhookRequest)
    (h : r.sigHeader ≠ hmacModel secret (encodeEvent r.event)) :
    stripe_webhook secret provider httpOk r
      = (.error { status := 400, detail := "Invalid signature" }, []) := by
  simp [stripe_webhook, verify_webhook, h]

/-- Witness for C1 at a concrete tampered request: the header is off by one
from the expected signature. -/
theorem webhook_invalid_signature_rejected_witness :
    ({ event := checkoutEvent, sigHeader := hmacModel "whsec" (encodeEvent checkoutEvent) + 1 }
        : WebhookRequest).sigHeader ≠ hmacModel "whsec" (encodeEvent checkoutEvent) ∧
    stripe_webhook "whsec" .disabled true
        { event := checkoutEvent, sigHeader := hmacModel "whsec" (encodeEvent checkoutEvent) + 1 }
      = (.error { status := 400, detail := "Invalid signature" }, []) :=
  ⟨Nat.succ_ne_self _,
   webhook_invalid_signature_rejected "whsec" .disabled true _ (Nat.succ_ne_self _)⟩

/-- Helper: a token checked at its own issue time carries the expected
signature and has age zero, so verification returns the payload. -/
theorem unsign_sign_eq_ok (secret : String) (now maxAge : Nat) (s : String) :
    unsign secret now maxAge (sign secret now s) = .ok s := by
  simp [unsign, sign]

/-- C8: verifying a token immediately after issuing it for a slug, with the
same process-wide secret and any maxAge, succeeds and returns exactly that
slug. -/
theorem preview_token_round_trip (secret : String) (now maxAge : Nat) (s : String) :
    unsign secret now maxAge (sign secret now s) = .ok s :=
  unsign_sign_eq_ok secret now maxAge s

/-- C10: the preview-token endpoint issues a signed token for every slug
without consulting the catalog — the response does not depend on the catalog
state — issuance never fails, and the issued token verifies back to the slug,
whether or not any item with that slug exists or is published. -/
theorem preview_token_issued_unconditionally (c c₂ : Catalog) (secret : String)
    (now : Nat) (slug : String) :
    preview_token c secret now slug = .ok (sign secret now slug) ∧
    preview_token c secret now slug = preview_token c₂ secret now slug ∧
    ∃ tok, preview_token c secret now slug = .ok tok ∧
      unsign secret now 3600 tok = .ok slug :=
  ⟨rfl, rfl, sign secret now slug, rfl, unsign_sign_eq_ok secret now 3600 slug⟩

/-- C4: the claim fails on the code. The builder's replace patterns are the
plain doubled-brace literals, while both the claim's configured template and
the f-string default contain single-brace placeholders, so on the claim's
input (slug widget-1, order id abc123) the builder returns the template
verbatim with nothing substituted — not the claimed substituted URL. The
replace does fire, but only when the configured template itself spells the
placeholders with doubled braces. -/
theorem build_success_url_keeps_single_brace_placeholders :
    build_success_url
        { STRIPE_SUCCESS_URL_BASE := some "https://example.com/p/{slug}?success=1&op={order_public_id}",
          STRIPE_CANCEL_URL_BASE := none, BASE_URL := none }
        "widget-1" "abc123"
      = "https://example.com/p/{slug}?success=1&op={order_public_id}" ∧
    build_success_url
        { STRIPE_SUCCESS_URL_BASE := none, STRIPE_CANCEL_URL_BASE := none, BASE_URL := none }
        "widget-1" "abc123"
      = "http://localhost:8000/p/{slug}?success=1&op={order_public_id}" ∧
    ("https://example.com/p/{slug}?success=1&op={order_public_id}" : String)
      ≠ "https://example.com/p/widget-1?success=1&op=abc123" ∧
    build_success_url
        { STRIPE_SUCCESS_URL_BASE := some "https://example.com/p/{{slug}}?success=1&op={{order_public_id}}",
          STRIPE_CANCEL_URL_BASE := none, BASE_URL := none }
        "widget-1" "abc123"
      = "https://example.com/p/widget-1?success=1&op=abc123" :=
  ⟨rfl, rfl, by decide, rfl⟩

/-- C3: a signature-verified checkout.session.completed event whose payload
carries a buyer email and a product slug makes the handler invoke the
dispatcher's send exactly once, with the order-confirmation subject; and the
response is the success acknowledgment for every provider and network state,
in particular when the send fails. -/
theorem checkout_completed_sends_one_confirmation (secret : String)
    (provider : EmailProvider) (httpOk : Bool) (r : WebhookRequest) (em sl : String)
    (hsig : r.sigHeader = hmacModel secret (encodeEvent r.event))
    (htype : r.event.type = "checkout.session.completed")
    (hemail : r.event.object.customer_details.bind (fun cd => cd.email) = some em)
    (hem : em ≠ "")
    (hslug : ((r.event.object.metadata.getD []).lookup "product_slug").getD "" = sl)
    (hsl : sl ≠ "") :
    stripe_webhook secret provider httpOk r
      = (.ok { ok := true },
         [{ toAddr := em,
            subject := "Your order is confirmed",
            html := "<p>Thanks for your purchase of <strong>" ++ sl ++ "</strong>.</p>",
            text := some ("Order confirmed for " ++ sl) }]) := by
  simp [stripe_webhook, verify_webhook, hsig, htype, hemail, hslug, pyTruthyOpt, hem, hsl]

/-- Witness for C3 at a concrete verified event, with a configured backend
whose network call fails (httpOk false): the acknowledgment is still
success. -/
theorem checkout_completed_sends_one_confirmation_witness :
    ({ event := checkoutEvent, sigHeader := hmacModel "whsec" (encodeEvent checkoutEvent) }
        : WebhookRequest).event.type = "checkout.session.completed" ∧
    "buyer@example.com" ≠ "" ∧ "widget-1" ≠ "" ∧
    stripe_webhook "whsec" (.postmark "key" "from@example.com") false
        { event := checkoutEvent, sigHeader := hmacModel "whsec" (encodeEvent checkoutEvent) }
      = (.ok { ok := true },
         [{ toAddr := "buyer@example.com",
            subject := "Your order is confirmed",
            html := "<p>Thanks for your purchase of <strong>widget-1</strong>.</p>",
            text := some ("Order confirmed for widget-1") }]) :=
  ⟨rfl, by decide, by decide,
   checkout_completed_sends_one_confirmation "whsec" (.postmark "key" "from@example.com")
     false _ "buyer@example.com" "widget-1" rfl rfl rfl (by decide) rfl (by decide)⟩

/-- C7: a signature-verified charge.refunded event whose billing details carry
no email makes the handler invoke the dispatcher zero times, and the response
is still the success acknowledgment. -/
theorem charge_refunded_without_email_sends_nothing (secret : String)
    (provider : EmailProvider) (httpOk : Bool) (r : WebhookRequest)
    (hsig : r.sigHeader = hmacModel secret (encodeEvent r.event))
    (htype : r.event.type = "charge.refunded")
    (hmail : r.event.object.billing_details.bind (fun bd => bd.email) = none) :
    stripe_webhook secret provider httpOk r = (.ok { ok := true }, []) := by
  simp [stripe_webhook, verify_webhook, hsig, htype, hmail, pyTruthyOpt]

/-- Witness for C7 at a concrete verified refund event with no billing
email. -/
theorem charge_refunded_without_email_sends_nothing_witness :
    ({ event := refundedEvent, sigHeader := hmacModel "whsec" (encodeEvent refundedEvent) }
        : WebhookRequest).event.type = "charge.refunded" ∧
    refundedEvent.object.billing_details.bind (fun bd => bd.email) = none ∧
    stripe_webhook "whsec" .disabled true
        { event := refundedEvent, sigHeader := hmacModel "whsec" (encodeEvent refundedEvent) }
      = (.ok { ok := true }, []) :=
  ⟨rfl, rfl,
   charge_refunded_without_email_sends_nothing "whsec" .disabled true _ rfl rfl rfl⟩

/-- C5: the default-price resolver returns the item's default-price reference
exactly when that price, once fetched, is active; otherwise it falls back to
the first entry of the active-price listing (at most 10, in listing order);
and it returns none when the fallback listing is empty as well. -/
theorem default_price_resolution (c : Catalog) (p : Product) :
    (∀ dp pr, p.default_price = some dp → dp ≠ "" →
        retrievePrice c dp = some pr → pr.active = true →
        default_price_for_product c p = .ok (some pr.id)) ∧
    (∀ dp pr, p.default_price = some dp → dp ≠ "" →
        retrievePrice c dp = some pr → pr.active = false →
        default_price_for_product c p
          = .ok ((listActivePrices c p.id 10).head?.map Price.id)) ∧
    (p.default_price = none →
        default_price_for_product c p
          = .ok ((listActivePrices c p.id 10).head?.map Price.id)) ∧
    (p.default_price = none → listActivePrices c p.id 10 = [] →
        default_price_for_product c p = .ok none) := by
  refine ⟨?_, ?_, ?_, ?_⟩
  · intro dp pr hdp hne hret hact
    simp [default_price_for_product, hdp, hne, hret, hact]
  · intro dp pr hdp hne hret hact
    simp [default_price_for_product, hdp, hne, hret, hact]
  · intro hdp
    simp [default_price_for_product, hdp]
  · intro hdp hlist
    simp [default_price_for_product, hdp, hlist]

/-- Witness for C5: the spec's example input — inactive default price P1 and
active listing [P2, P3] — resolves to P2 through the inactive-default clause
of the resolution theorem. -/
theorem default_price_resolution_witness :
    exampleProduct.default_price = some "P1" ∧
    retrievePrice exampleCatalog "P1"
      = some { id := "P1", product := "prod_x", active := false } ∧
    listActivePrices exampleCatalog "prod_x" 10
      = [{ id := "P2", product := "prod_x", active := true },
         { id := "P3", product := "prod_x", active := true }] ∧
    default_price_for_product exampleCatalog exampleProduct = .ok (some "P2") :=
  ⟨rfl, rfl, rfl,
   ((default_price_resolution exampleCatalog exampleProduct).2.1 "P1"
       { id := "P1", product := "prod_x", active := false }
       rfl (by decide) rfl rfl).trans rfl⟩

/-- C6 counterexample: a published product with no active price yields HTTP
400 "No active price for product", while an unknown slug yields HTTP 404
"Product not found" — a different error class, refuting the claim that the
two share the NotFound class. -/
theorem no_active_price_differs_from_unknown_slug :
    product_page noPriceCatalog "change_me" 0 "widget" none
      = .error { status := 400, detail := "No active price for product" } ∧
    product_page noPriceCatalog "change_me" 0 "unknown" none
      = .error { status := 404, detail := "Product not found" } ∧
    ({ status := 400, detail := "No active price for product" } : HttpError)
      ≠ { status := 404, detail := "Product not found" } :=
  ⟨rfl, rfl, by decide⟩

/-- C6 amended: a product-page request for an item that exists and is visible
but has no active price fails with HTTP 400 "No active price for product"
(BadRequest), not with the 404 NotFound class used for an unknown slug. -/
theorem no_active_price_yields_400 (c : Catalog) (secret : String) (now : Nat)
    (slug : String) (prod : Product)
    (hfind : find_product_by_slug c slug = some prod)
    (hpub : (meta_from_product prod).published = "true")
    (hprice : default_price_for_product c prod = .ok none) :
    product_page c secret now slug none
      = .error { status := 400, detail := "No active price for product" } := by
  simp [product_page, hfind, hpub, hprice]

/-- Witness for the amended C6 at the concrete no-price catalog. -/
theorem no_active_price_yields_400_witness :
    find_product_by_slug noPriceCatalog "widget" = some widgetProduct ∧
    (meta_from_product widgetProduct).published = "true" ∧
    default_price_for_product noPriceCatalog widgetProduct = .ok none ∧
    product_page noPriceCatalog "change_me" 0 "widget" none
      = .error { status := 400, detail := "No active price for product" } :=
  ⟨rfl, rfl, rfl, no_active_price_yields_400 noPriceCatalog "change_me" 0 "widget"
    widgetProduct rfl rfl rfl⟩

/-- C2: at the concrete unpublished product, a request with a tampered
preview token yields HTTP 403 "Invalid preview token" and a request with an
expired token yields the same 403, while a genuinely nonexistent slug yields
HTTP 404 "Product not found" — the outcomes are distinguishable, contrary to
the claim; the no-token request is also distinguishable by its detail
string. -/
theorem invalid_preview_token_distinguishable_from_missing :
    product_page previewDemoCatalog "change_me" 1000 "secret1"
        (some { payload := "secret1", ts := 1000,
                sig := tokenMac "change_me" "secret1" 1000 + 1 })
      = .error { status := 403, detail := "Invalid preview token" } ∧
    product_page previewDemoCatalog "change_me" 5000 "secret1"
        (some (sign "change_me" 0 "secret1"))
      = .error { status := 403, detail := "Invalid preview token" } ∧
    product_page previewDemoCatalog "change_me" 1000 "secret1" none
      = .error { status := 404, detail := "Product not published" } ∧
    product_page previewDemoCatalog "change_me" 1000 "nosuch" none
      = .error { status := 404, detail := "Product not found" } ∧
    ({ status := 403, detail := "Invalid preview token" } : HttpError)
      ≠ { status := 404, detail := "Product not found" } ∧
    ({ status := 404, detail := "Product not published" } : HttpError)
      ≠ { status := 404, detail := "Product not found" } :=
  ⟨rfl, rfl, rfl, rfl, by decide, by decide⟩

/-- C9: startup backend selection picks a concrete backend exactly when the
normalised backend identifier names it and both the credential and the sender
address are nonempty; in every other configuration the no-op variant is
substituted; and the no-op variant's send always succeeds without making any
network call. -/
theorem provider_selection_and_noop_send (cfg : EmailConfig) :
    ((build_provider cfg
        = .postmark (cfg.EMAIL_API_KEY.getD "") (cfg.EMAIL_FROM.getD "")) ↔
      (pyLower (pyStrip (cfg.EMAIL_PROVIDER.getD "disabled")) = "postmark" ∧
        cfg.EMAIL_API_KEY.getD "" ≠ "" ∧ cfg.EMAIL_FROM.getD "" ≠ "")) ∧
    ((build_provider cfg
        = .brevo (cfg.EMAIL_API_KEY.getD "") (cfg.EMAIL_FROM.getD "")) ↔
      (pyLower (pyStrip (cfg.EMAIL_PROVIDER.getD "disabled")) = "brevo" ∧
        cfg.EMAIL_API_KEY.getD "" ≠ "" ∧ cfg.EMAIL_FROM.getD "" ≠ "")) ∧
    ((build_provider cfg
        = .sendgrid (cfg.EMAIL_API_KEY.getD "") (cfg.EMAIL_FROM.getD "")) ↔
      (pyLower (pyStrip (cfg.EMAIL_PROVIDER.getD "disabled")) = "sendgrid" ∧
        cfg.EMAIL_API_KEY.getD "" ≠ "" ∧ cfg.EMAIL_FROM.getD "" ≠ "")) ∧
    (¬((pyLower (pyStrip (cfg.EMAIL_PROVIDER.getD "disabled")) = "postmark" ∨
        pyLower (pyStrip (cfg.EMAIL_PROVIDER.getD "disabled")) = "brevo" ∨
        pyLower (pyStrip (cfg.EMAIL_PROVIDER.getD "disabled")) = "sendgrid") ∧
        cfg.EMAIL_API_KEY.getD "" ≠ "" ∧ cfg.EMAIL_FROM.getD "" ≠ "") →
      build_provider cfg = .disabled) ∧
    (∀ call httpOk, providerSend .disabled call httpOk = .ok ()) := by
  refine ⟨?_, ?_, ?_, ?_, fun _ _ => rfl⟩ <;>
    · simp only [build_provider]
      split_ifs with h1 h2 h3 <;> simp_all

/-- Witness for C9: a padded, mixed-case "Postmark" identifier with both
credentials set selects the Postmark backend; the same identifier with an
empty credential falls back to the no-op variant, whose send succeeds. -/
theorem provider_selection_and_noop_send_witness :
    build_provider { EMAIL_PROVIDER := some " Postmark ", EMAIL_API_KEY := some "key",
                     EMAIL_FROM := some "from@example.com" }
      = .postmark "key" "from@example.com" ∧
    build_provider { EMAIL_PROVIDER := some " Postmark ", EMAIL_API_KEY := some "",
                     EMAIL_FROM := some "from@example.com" }
      = .disabled ∧
    providerSend .disabled
      { toAddr := "buyer@example.com", subject := "s", html := "h", text := none } false
      = .ok () := by
  refine ⟨?_, ?_, ?_⟩
  · exact (provider_selection_and_noop_send
      { EMAIL_PROVIDER := some " Postmark ", EMAIL_API_KEY := some "key",
        EMAIL_FROM := some "from@example.com" }).1.mpr ⟨by decide, by decide, by decide⟩
  · exact (provider_selection_and_noop_send
      { EMAIL_PROVIDER := some " Postmark ", EMAIL_API_KEY := some "",
        EMAIL_FROM := some "from@example.com" }).2.2.2.1 (by decide)
  · exact (provider_selection_and_noop_send
      { EMAIL_PROVIDER := some " Postmark ", EMAIL_API_KEY := some "",
        EMAIL_FROM := some "from@example.com" }).2.2.2.2 _ _

end LinkMint
